import Mathlib

/-
Verification of the serde_traitobject wire protocol: a shallow embedding of
src/lib.rs and src/convenience.rs.

Modelling conventions:
* The serde data model (what a self-describing codec exchanges) is the
  inductive `Wire`.  Concrete payload values are modelled as `Nat`; each
  concrete Rust type is a `ConcreteType`: a 64-bit type fingerprint
  (`type_id`, modelled as `Nat`) together with its serde codec.
* A process is an `Env`: the anchor vtable address and build id used by the
  `relative` crate, the fingerprints of trait-object (interface) types, the
  table of concrete types, the vtable address of each (concrete, interface)
  pair, and the reverse lookup `vtOwner` that says which (concrete,
  interface) pair a given address is the vtable of.  `vtOwner` models
  dynamic dispatch through a vtable pointer: calling a method on a fat
  pointer whose vtable lives at address `a` runs the implementation of the
  concrete type `vtOwner a`.
* Machine addresses are `Int` (the relative offset is a signed integer).
* Panics (`assert_eq!`) are the outcome `DOut.fatal`; the `unreachable!()` /
  `panic!()` stubs of the specialization machinery are `.unreach`;
  dispatching through an address that is not a vtable is undefined
  behaviour, modelled as `.ub`; recoverable serde errors are `.err`.
-/

namespace SerdeTraitobject

/-- The serde data model exchanged with the pluggable self-describing codec:
integers, strings, sequences (also used for tuples), and the serialized form
of a `relative::Vtable` (build id, trait-object type fingerprint, offset). -/
inductive Wire where
  | nat (n : Nat)
  | str (s : String)
  | seq (xs : List Wire)
  | vtref (buildId : Nat) (traitFp : Nat) (offset : Int)

/-- A concrete Rust type: its `type_id` fingerprint (a 64-bit value, modelled
as `Nat`) and its serde codec on payload values (modelled as `Nat`). -/
structure ConcreteType where
  fp : Nat
  ser : Nat → Wire
  de : Wire → Option Nat

/-- One process running the compiled binary: the data the crate and the
`relative` crate consult.  `vt c i` is the address of the vtable of concrete
type `c` for interface `i`; `vtOwner a` is the reverse lookup used to model
dynamic dispatch through the vtable at address `a`. -/
structure Env where
  buildId : Nat
  base : Int
  strFp : Nat
  sliceFp : Nat → Nat
  ifaceFp : Nat → Nat
  concrete : Nat → ConcreteType
  vt : Nat → Nat → Int
  vtOwner : Int → Option (Nat × Nat)

/-- Modelled from the spec: the Relative Dispatch-Table Reference component
(the `relative` crate, not part of src/).  Encoding a vtable pointer writes
the build fingerprint, the fingerprint of the trait-object type, and the
signed offset of the pointer from the anchor vtable. -/
def vtableEncode (env : Env) (iface : Nat) (vtable : Int) : Wire :=
  Wire.vtref env.buildId (env.ifaceFp iface) (vtable - env.base)

/-- Modelled from the spec: deserializing a `relative::Vtable` for the
statically expected interface validates the build fingerprint and the
trait-object type fingerprint; a mismatch is a recoverable decode error
(`none` here).  The offset itself is returned unvalidated. -/
def vtableDeserialize (env : Env) (iface : Nat) : Wire → Option Int
  | Wire.vtref b t o =>
      if b = env.buildId ∧ t = env.ifaceFp iface then some o else none
  | _ => none

/-- Modelled from the spec: raw decode of a relative reference, anchor
address plus offset in the current process, with no validation. -/
def vtableTo (env : Env) (offset : Int) : Int :=
  env.base + offset

/-- The runtime values reachable through the public entry points, one
constructor per static shape the specialization machinery distinguishes:
a sized serde value, a str, a slice of serde values, and a trait object
(its interface, the concrete type behind it, and the payload). -/
inductive SVal where
  | sized (cid : Nat) (v : Nat)
  | strV (s : String)
  | slice (cid : Nat) (vs : List Nat)
  | tobj (iface : Nat) (cid : Nat) (v : Nat)
deriving DecidableEq

/-- The static types the (de)serializers are instantiated at. -/
inductive STy where
  | sizedTy (cid : Nat)
  | strTy
  | sliceTy (cid : Nat)
  | tobjTy (iface : Nat)
deriving DecidableEq

/-- The vtable pointer held in the fat-reference metadata, `some` exactly
when `metatype::Type::meta_type` is `MetaType::TraitObject` (str and slice
metadata is a length, sized metadata is unit). -/
def fatVtable (env : Env) : SVal → Option Int
  | SVal.tobj i cid _ => some (env.vt cid i)
  | _ => none

/-- Dynamic dispatch of `serialize::Sealed::type_id`: asking the value itself
for the `type_id` of its concrete type (for a trait object this goes through
the vtable to the concrete implementation). -/
def typeIdDyn (env : Env) : SVal → Nat
  | SVal.sized cid _ => (env.concrete cid).fp
  | SVal.strV _ => env.strFp
  | SVal.slice cid _ => env.sliceFp cid
  | SVal.tobj _ cid _ => (env.concrete cid).fp

/-- Dynamic dispatch of `erased_serde::serialize`: the value serializes
itself through its own serde implementation. -/
def erasedSerialize (env : Env) : SVal → Wire
  | SVal.sized cid v => (env.concrete cid).ser v
  | SVal.strV s => Wire.str s
  | SVal.slice cid vs => Wire.seq (vs.map (env.concrete cid).ser)
  | SVal.tobj _ cid v => (env.concrete cid).ser v

/-- Outcome of serialization: a wire value, or the execution of an
`unreachable!()` / `panic!()` stub of the specialization machinery. -/
inductive SOut where
  | ok (w : Wire)
  | unreach

/-- The body of the default (unreachable) `serialize::Sealed::serialize_sized`,
lib.rs lines 246-253. -/
def serialize_sized_default : SOut :=
  SOut.unreach

/-- The specialized `serialize::Sealed::serialize_sized` for a sized serde
type, lib.rs lines 256-265: plain serde serialization. -/
def serialize_sized_spec (env : Env) (cid v : Nat) : SOut :=
  SOut.ok ((env.concrete cid).ser v)

/-- What serde natively produces for a str. -/
def serdeSerializeStr (s : String) : Wire :=
  Wire.str s

/-- What serde natively produces for a slice: a sequence of the serialized
elements. -/
def serdeSerializeSlice (env : Env) (cid : Nat) (vs : List Nat) : Wire :=
  Wire.seq (vs.map (env.concrete cid).ser)

/-- The default (trait object) specialization of `Serializer::serialize`,
lib.rs lines 372-396: pull the vtable pointer out of the fat-reference
metadata (`panic!()` if the metadata is not a vtable), then write a 3-tuple
of the encoded relative vtable reference, the concrete `type_id` obtained by
dynamic dispatch on the value, and the erased payload. -/
def serializeTraitObjectImpl (env : Env) (iface : Nat) (t : SVal) : SOut :=
  match fatVtable env t with
  | some vtbl =>
      SOut.ok (Wire.seq
        [ vtableEncode env iface vtbl
        , Wire.nat (typeIdDyn env t)
        , erasedSerialize env t ])
  | none => SOut.unreach

/-- `Serializer::<T>::serialize` after specialization resolution, lib.rs
lines 345-396: a sized value through `serialize_sized`, str and slices
through serde natively, everything else (trait objects) through the
envelope-writing default implementation. -/
def serializerSerialize (env : Env) (t : SVal) : SOut :=
  match t with
  | SVal.sized cid v => serialize_sized_spec env cid v
  | SVal.strV s => SOut.ok (serdeSerializeStr s)
  | SVal.slice cid vs => SOut.ok (serdeSerializeSlice env cid vs)
  | SVal.tobj i cid v => serializeTraitObjectImpl env i (SVal.tobj i cid v)

/-- The public `serialize` entry point, lib.rs lines 518-525. -/
def serialize (env : Env) (t : SVal) : SOut :=
  serializerSerialize env t

/-- Recoverable serde decode errors surfaced to the caller. -/
inductive DeError where
  | invalidLength (n : Nat)
  | expectedTuple
  | vtableInvalid
  | expectedU64
  | codec
  | custom
deriving DecidableEq

/-- Outcome of deserialization: a value, a recoverable decode error, a panic
(`assert_eq!` failure, `DOut.fatal`), an executed `unreachable!()` stub, or
undefined behaviour from dispatching through a non-vtable address. -/
inductive DOut (α : Type) where
  | ok (a : α)
  | err (e : DeError)
  | fatal
  | unreach
  | ub

/-- Map over the success value of a deserialization outcome. -/
def DOut.map (f : α → β) : DOut α → DOut β
  | DOut.ok a => DOut.ok (f a)
  | DOut.err e => DOut.err e
  | DOut.fatal => DOut.fatal
  | DOut.unreach => DOut.unreach
  | DOut.ub => DOut.ub

/-- Reading a u64 element (the recorded concrete-type fingerprint) from the
self-describing codec. -/
def u64Deserialize : Wire → Option Nat
  | Wire.nat n => some n
  | _ => none

/-- Native serde deserialization of a str. -/
def serdeDeserializeStr : Wire → Option String
  | Wire.str s => some s
  | _ => none

/-- Native serde deserialization of a boxed slice: a sequence of elements,
each through the element codec. -/
def serdeDeserializeSlice (env : Env) (cid : Nat) : Wire → Option (List Nat)
  | Wire.seq ws => ws.mapM (env.concrete cid).de
  | _ => none

/-- The body of the default (unreachable) `deserialize::Sealed::deserialize_erased`,
lib.rs lines 272-277. -/
def deserialize_erased_default : DOut Nat :=
  DOut.unreach

/-- The body of the default (unreachable) `deserialize::Sealed::deserialize_box`,
lib.rs lines 279-286. -/
def deserialize_box_default : DOut Nat :=
  DOut.unreach

/-- The specialized `deserialize::Sealed::deserialize_box` for a sized
DeserializeOwned type, lib.rs lines 307-313: plain serde deserialization,
boxed. -/
def deserialize_box_spec (env : Env) (cid : Nat) (w : Wire) : DOut Nat :=
  match (env.concrete cid).de w with
  | some v => DOut.ok v
  | none => DOut.err DeError.codec

/-- `Visitor::visit_seq` of the trait-object specialization of
`Deserializer::deserialize`, lib.rs lines 456-476, in the order the code
executes:
1. read the `Vtable<T>` element (validated by the relative crate; a missing
   element is `invalid_length 0`);
2. read the recorded u64 concrete-type fingerprint (missing:
   `invalid_length 1`);
3. build a dangling fat pointer from the raw decoded vtable address and ask
   it, by dynamic dispatch, for the `type_id` of the concrete type the
   vtable belongs to; `assert_eq!` it against the recorded fingerprint,
   panicking on mismatch;
4. only then read the erased payload through the concrete codec the vtable
   designates (missing: `invalid_length 2`; a payload codec failure is
   mapped to an ordinary custom error).
The result is the concrete type id and payload of the boxed trait object. -/
def visit_seq (env : Env) (iface : Nat) (xs : List Wire) : DOut (Nat × Nat) :=
  match xs with
  | [] => DOut.err (DeError.invalidLength 0)
  | w0 :: xs1 =>
    match vtableDeserialize env iface w0 with
    | none => DOut.err DeError.vtableInvalid
    | some t0 =>
      match xs1 with
      | [] => DOut.err (DeError.invalidLength 1)
      | w1 :: xs2 =>
        match u64Deserialize w1 with
        | none => DOut.err DeError.expectedU64
        | some t1 =>
          match env.vtOwner (vtableTo env t0) with
          | none => DOut.ub
          | some (cid, _) =>
            if t1 = (env.concrete cid).fp then
              match xs2 with
              | [] => DOut.err (DeError.invalidLength 2)
              | w2 :: _ =>
                match (env.concrete cid).de w2 with
                | none => DOut.err DeError.custom
                | some v => DOut.ok (cid, v)
            else DOut.fatal

/-- The default (trait object) specialization of `Deserializer::deserialize`,
lib.rs lines 443-480: `deserialize_tuple(3, Visitor)`; the self-describing
codec hands a sequence to `visit_seq` and anything else is a format error. -/
def deserializeTraitObjectImpl (env : Env) (iface : Nat) (w : Wire) : DOut (Nat × Nat) :=
  match w with
  | Wire.seq xs => visit_seq env iface xs
  | _ => DOut.err DeError.expectedTuple

/-- `Deserializer::<T>::deserialize` after specialization resolution, lib.rs
lines 416-480: sized types through `deserialize_box`, str and slices through
serde natively, trait objects through the envelope-reading default
implementation. -/
def deserializerDeserialize (env : Env) (ty : STy) (w : Wire) : DOut SVal :=
  match ty with
  | STy.sizedTy cid => (deserialize_box_spec env cid w).map (SVal.sized cid)
  | STy.strTy =>
    match serdeDeserializeStr w with
    | some s => DOut.ok (SVal.strV s)
    | none => DOut.err DeError.codec
  | STy.sliceTy cid =>
    match serdeDeserializeSlice env cid w with
    | some vs => DOut.ok (SVal.slice cid vs)
    | none => DOut.err DeError.codec
  | STy.tobjTy i =>
    (deserializeTraitObjectImpl env i w).map (fun p => SVal.tobj i p.1 p.2)

/-- The public `deserialize` entry point, lib.rs lines 550-558 (the final
`Into` conversion of the box is the identity in this model). -/
def deserialize (env : Env) (ty : STy) (w : Wire) : DOut SVal :=
  deserializerDeserialize env ty w

/-- A heap of boxed allocations: the cells already allocated (address and
stored concrete value) and the next fresh address. -/
structure Heap where
  cells : List (Nat × Nat)
  next : Nat
deriving DecidableEq

/-- `Box::new`: allocate a fresh cell holding the value and return the new
heap and the thin pointer to the cell. -/
def Heap.alloc (h : Heap) (v : Nat) : Heap × Nat :=
  (Heap.mk (h.cells ++ [(h.next, v)]) (h.next + 1), h.next)

/-- The specialized `deserialize::Sealed::deserialize_erased` body, lib.rs
lines 299-304: deserialize a concrete value through `erased_serde`, then
`Box::new` it and return the thin pointer (`NonNull<()>`); the deserializer
error is returned unchanged. -/
def deserializeErasedImpl (env : Env) (cid : Nat) (h : Heap) (w : Wire) :
    Option (Heap × Nat) :=
  ((env.concrete cid).de w).map (fun x => h.alloc x)

/-- The free function `deserialize::deserialize_erased`, lib.rs lines
322-334: dispatch `deserialize_erased` through the dangling pointer (whose
vtable designates concrete type `cid`), then fatten the returned thin
pointer with the metadata of that pointer into a boxed trait object. -/
def deserializeErasedFn (env : Env) (cid : Nat) (vtAddr : Int) (h : Heap)
    (w : Wire) : Option (Heap × (Nat × Int)) :=
  (deserializeErasedImpl env cid h w).map (fun p => (p.1, (p.2, vtAddr)))

/-- Modelled from the spec: the order of Shape C deserialization as the spec
(section 4.5) words it, with the fingerprint of the actual deserialized
concrete value recomputed and asserted only after the erased payload has
been successfully deserialized.  Kept only to compare with `visit_seq`,
which is translated from the source. -/
def visit_seq_claimOrder (env : Env) (iface : Nat) (xs : List Wire) :
    DOut (Nat × Nat) :=
  match xs with
  | [] => DOut.err (DeError.invalidLength 0)
  | w0 :: xs1 =>
    match vtableDeserialize env iface w0 with
    | none => DOut.err DeError.vtableInvalid
    | some t0 =>
      match xs1 with
      | [] => DOut.err (DeError.invalidLength 1)
      | w1 :: xs2 =>
        match u64Deserialize w1 with
        | none => DOut.err DeError.expectedU64
        | some t1 =>
          match env.vtOwner (vtableTo env t0) with
          | none => DOut.ub
          | some (cid, _) =>
            match xs2 with
            | [] => DOut.err (DeError.invalidLength 2)
            | w2 :: _ =>
              match (env.concrete cid).de w2 with
              | none => DOut.err DeError.custom
              | some v =>
                if t1 = (env.concrete cid).fp then DOut.ok (cid, v)
                else DOut.fatal

/-- Model of `std::boxed::Box`: unique ownership of one value. -/
structure StdBox (α : Type) where
  val : α

/-- `Clone` of the std box clones the contained value. -/
def StdBox.clone (c : α → α) (b : StdBox α) : StdBox α :=
  StdBox.mk (c b.val)

/-- `PartialEq` of the std box compares the contained values. -/
def StdBox.beq (e : α → α → Bool) (a b : StdBox α) : Bool :=
  e a.val b.val

/-- `Debug`/`Display` of the std box formats the contained value. -/
def StdBox.fmt (f : α → String) (b : StdBox α) : String :=
  f b.val

/-- The crate wrapper `Box` of convenience.rs line 9: a newtype around the
std box. -/
structure TBox (α : Type) where
  boxed : StdBox α

/-- `Deref for Box`, convenience.rs lines 47-52: the target is the inner std
box. -/
def TBox.deref (b : TBox α) : StdBox α :=
  b.boxed

/-- `Box::into_box`, convenience.rs lines 18-20. -/
def TBox.into_box (b : TBox α) : StdBox α :=
  b.boxed

/-- Derived `Clone` of the wrapper clones the inner std box. -/
def TBox.clone (c : α → α) (b : TBox α) : TBox α :=
  TBox.mk (b.boxed.clone c)

/-- Derived `PartialEq` of the wrapper compares the inner std boxes. -/
def TBox.beq (e : α → α → Bool) (a b : TBox α) : Bool :=
  StdBox.beq e a.boxed b.boxed

/-- `Debug`/`Display for Box`, convenience.rs lines 115-124: `self.0.fmt(f)`. -/
def TBox.fmt (f : α → String) (b : TBox α) : String :=
  StdBox.fmt f b.boxed

/-- `serde::ser::Serialize for Box`, convenience.rs lines 150-157: route the
contained value through the specializing `serialize`. -/
def TBox.serializeSerde (env : Env) (b : TBox SVal) : SOut :=
  serialize env b.boxed.val

/-- `serde::de::Deserialize for Box`, convenience.rs lines 158-165:
`deserialize(deserializer).map(Self)`. -/
def TBox.deserializeSerde (env : Env) (ty : STy) (w : Wire) : DOut (TBox SVal) :=
  (deserialize env ty w).map (fun v => TBox.mk (StdBox.mk v))

/-- Model of `std::rc::Rc`: shared ownership of one value (the reference
count is not observable in a pure model). -/
structure StdRc (α : Type) where
  val : α

/-- `Rc::clone` shares the same allocation. -/
def StdRc.clone (r : StdRc α) : StdRc α :=
  r

/-- `PartialEq` of the std rc compares the contained values. -/
def StdRc.beq (e : α → α → Bool) (a b : StdRc α) : Bool :=
  e a.val b.val

/-- `Debug`/`Display` of the std rc formats the contained value. -/
def StdRc.fmt (f : α → String) (r : StdRc α) : String :=
  f r.val

/-- The crate wrapper `Rc` of convenience.rs line 169. -/
structure TRc (α : Type) where
  rc : StdRc α

/-- `Deref for Rc`, convenience.rs lines 177-182. -/
def TRc.deref (r : TRc α) : StdRc α :=
  r.rc

/-- `Clone for Rc`, convenience.rs lines 223-227: `Self(self.0.clone())`. -/
def TRc.clone (r : TRc α) : TRc α :=
  TRc.mk r.rc.clone

/-- Derived `PartialEq` of the wrapper compares the inner std rcs. -/
def TRc.beq (e : α → α → Bool) (a b : TRc α) : Bool :=
  StdRc.beq e a.rc b.rc

/-- `Debug`/`Display for Rc`, convenience.rs lines 228-237. -/
def TRc.fmt (f : α → String) (r : TRc α) : String :=
  StdRc.fmt f r.rc

/-- `serde::ser::Serialize for Rc`, convenience.rs lines 238-245. -/
def TRc.serializeSerde (env : Env) (r : TRc SVal) : SOut :=
  serialize env r.rc.val

/-- `serde::de::Deserialize for Rc`, convenience.rs lines 246-253. -/
def TRc.deserializeSerde (env : Env) (ty : STy) (w : Wire) : DOut (TRc SVal) :=
  (deserialize env ty w).map (fun v => TRc.mk (StdRc.mk v))

/-- Model of `std::sync::Arc`: atomically shared ownership of one value. -/
structure StdArc (α : Type) where
  val : α

/-- `Arc::clone` shares the same allocation. -/
def StdArc.clone (r : StdArc α) : StdArc α :=
  r

/-- `PartialEq` of the std arc compares the contained values. -/
def StdArc.beq (e : α → α → Bool) (a b : StdArc α) : Bool :=
  e a.val b.val

/-- `Debug`/`Display` of the std arc formats the contained value. -/
def StdArc.fmt (f : α → String) (r : StdArc α) : String :=
  f r.val

/-- The crate wrapper `Arc` of convenience.rs line 257. -/
structure TArc (α : Type) where
  arc : StdArc α

/-- `Deref for Arc`, convenience.rs lines 265-270. -/
def TArc.deref (r : TArc α) : StdArc α :=
  r.arc

/-- `Clone for Arc`, convenience.rs lines 311-315: `Self(self.0.clone())`. -/
def TArc.clone (r : TArc α) : TArc α :=
  TArc.mk r.arc.clone

/-- Derived `PartialEq` of the wrapper compares the inner std arcs. -/
def TArc.beq (e : α → α → Bool) (a b : TArc α) : Bool :=
  StdArc.beq e a.arc b.arc

/-- `Debug`/`Display for Arc`, convenience.rs lines 316-325. -/
def TArc.fmt (f : α → String) (r : TArc α) : String :=
  StdArc.fmt f r.arc

/-- `serde::ser::Serialize for Arc`, convenience.rs lines 326-333. -/
def TArc.serializeSerde (env : Env) (r : TArc SVal) : SOut :=
  serialize env r.arc.val

/-- `serde::de::Deserialize for Arc`, convenience.rs lines 334-341. -/
def TArc.deserializeSerde (env : Env) (ty : STy) (w : Wire) : DOut (TArc SVal) :=
  (deserialize env ty w).map (fun v => TArc.mk (StdArc.mk v))

/-- A concrete process environment used to instantiate theorems with
hypotheses: every concrete type serializes its payload as a plain integer,
concrete type `c` has fingerprint `100 + c`, interface `i` has fingerprint
`50 + i`, the vtable of `(c, i)` sits at address `2000 + 17 c + i`, and the
owner lookup inverts that layout. -/
def envW : Env where
  buildId := 7
  base := 1000
  strFp := 90
  sliceFp := fun cid => 91 + cid
  ifaceFp := fun i => 50 + i
  concrete := fun cid =>
    { fp := 100 + cid
    , ser := fun v => Wire.nat v
    , de := fun w => match w with | Wire.nat n => some n | _ => none }
  vt := fun cid i => 2000 + 17 * cid + i
  vtOwner := fun a =>
    if 2000 ≤ a then some ((a - 2000).toNat / 17, (a - 2000).toNat % 17)
    else none

/-- C1: serializing a trait object wrapping a value v of a serde-round-trip
concrete type through the public serialize entry point and deserializing it
through the public deserialize entry point in the same process succeeds and
yields the same trait object (same concrete type, same payload). -/
theorem C1_same_process_roundtrip (env : Env) (i cid v : Nat)
    (hOwn : env.vtOwner (env.vt cid i) = some (cid, i))
    (hRT : (env.concrete cid).de ((env.concrete cid).ser v) = some v) :
    ∃ w, serialize env (SVal.tobj i cid v) = SOut.ok w ∧
      deserialize env (STy.tobjTy i) w = DOut.ok (SVal.tobj i cid v) := by
  refine ⟨_, rfl, ?_⟩
  have hdec : env.base + (env.vt cid i - env.base) = env.vt cid i := by ring
  simp [deserialize, deserializerDeserialize, deserializeTraitObjectImpl,
    serialize, serializerSerialize, serializeTraitObjectImpl, fatVtable,
    typeIdDyn, erasedSerialize, vtableEncode, visit_seq, vtableDeserialize,
    u64Deserialize, vtableTo, hdec, hOwn, hRT, DOut.map]

/-- Witness for C1 at a concrete process environment and input. -/
theorem C1_same_process_roundtrip_witness :
    ∃ w, serialize envW (SVal.tobj 0 0 42) = SOut.ok w ∧
      deserialize envW (STy.tobjTy 0) w = DOut.ok (SVal.tobj 0 0 42) :=
  C1_same_process_roundtrip envW 0 0 42 rfl rfl

/-- C2: serializing a trait object writes exactly an ordered 3-element
tuple: the relative vtable reference encoding the vtable pointer of the fat
reference, the 64-bit fingerprint of the concrete type obtained by dynamic
dispatch on the value, and the erased payload, in that order and nothing
else. -/
theorem C2_envelope_exact (env : Env) (i cid v : Nat) :
    serialize env (SVal.tobj i cid v) = SOut.ok (Wire.seq
      [ Wire.vtref env.buildId (env.ifaceFp i) (env.vt cid i - env.base)
      , Wire.nat (env.concrete cid).fp
      , (env.concrete cid).ser v ]) :=
  rfl

/-- C3 counterexample: the claim states that the fingerprint is asserted only
after successful deserialization of the payload; on an envelope whose
fingerprint mismatches and whose payload is malformed the source
`visit_seq` panics before touching the payload, while the claimed order
would return an ordinary payload decode error. -/
theorem C3_counterexample :
    visit_seq envW 0 [Wire.vtref 7 50 1000, Wire.nat 999, Wire.str "junk"]
      = DOut.fatal ∧
    visit_seq_claimOrder envW 0
      [Wire.vtref 7 50 1000, Wire.nat 999, Wire.str "junk"]
      = DOut.err DeError.custom :=
  ⟨rfl, rfl⟩

/-- C3 amended: the relative reference is read and decoded first, then the
recorded fingerprint; the fingerprint of the concrete type the decoded
vtable belongs to is recomputed by dispatch through that vtable and asserted
before the payload is read (a mismatch panics whatever the rest of the
tuple holds); only on a match is the erased payload deserialized. -/
theorem C3_assert_before_payload (env : Env) (i : Nat) (w0 w1 : Wire)
    (t0 : Int) (t1 cid j : Nat)
    (h0 : vtableDeserialize env i w0 = some t0)
    (h1 : u64Deserialize w1 = some t1)
    (hOwn : env.vtOwner (vtableTo env t0) = some (cid, j)) :
    (t1 ≠ (env.concrete cid).fp →
      ∀ rest : List Wire, visit_seq env i (w0 :: w1 :: rest) = DOut.fatal) ∧
    (t1 = (env.concrete cid).fp →
      ∀ (w2 : Wire) (rest : List Wire),
        visit_seq env i (w0 :: w1 :: w2 :: rest) =
          match (env.concrete cid).de w2 with
          | none => DOut.err DeError.custom
          | some v => DOut.ok (cid, v)) := by
  constructor
  · intro hne rest
    simp [visit_seq, h0, h1, hOwn, hne]
  · intro heq w2 rest
    cases h2 : (env.concrete cid).de w2 <;>
      simp [visit_seq, h0, h1, hOwn, heq, h2]

/-- Witness for the amended C3 at a concrete input. -/
theorem C3_assert_before_payload_witness :
    visit_seq envW 0 [Wire.vtref 7 50 1000, Wire.nat 999] = DOut.fatal :=
  (C3_assert_before_payload envW 0 (Wire.vtref 7 50 1000) (Wire.nat 999)
    1000 999 0 0 rfl rfl rfl).1 (by decide) []

/-- C4: when the recorded concrete-type fingerprint disagrees with the
fingerprint of the concrete type the decoded vtable belongs to, the
deserializer panics instead of returning an ordinary decode error. -/
theorem C4_fingerprint_mismatch_panics (env : Env) (i : Nat) (w0 w1 : Wire)
    (rest : List Wire) (t0 : Int) (t1 cid j : Nat)
    (h0 : vtableDeserialize env i w0 = some t0)
    (h1 : u64Deserialize w1 = some t1)
    (hOwn : env.vtOwner (vtableTo env t0) = some (cid, j))
    (hne : t1 ≠ (env.concrete cid).fp) :
    deserialize env (STy.tobjTy i) (Wire.seq (w0 :: w1 :: rest)) = DOut.fatal := by
  simp [deserialize, deserializerDeserialize, deserializeTraitObjectImpl,
    visit_seq, h0, h1, hOwn, hne, DOut.map]

/-- Witness for C4 at a concrete input. -/
theorem C4_fingerprint_mismatch_panics_witness :
    deserialize envW (STy.tobjTy 0)
      (Wire.seq [Wire.vtref 7 50 1000, Wire.nat 999, Wire.nat 5]) = DOut.fatal :=
  C4_fingerprint_mismatch_panics envW 0 (Wire.vtref 7 50 1000) (Wire.nat 999)
    [Wire.nat 5] 1000 999 0 0 rfl rfl rfl (by decide)

/-- C5: deserializing an envelope under a trait-object type whose
fingerprint differs from the one it was encoded under is rejected by the
relative vtable validation as a recoverable decode error: never a panic and
never a successfully constructed value. -/
theorem C5_interface_mismatch_is_error (env : Env) (x y cid v : Nat)
    (hfp : env.ifaceFp x ≠ env.ifaceFp y) :
    ∃ w, serialize env (SVal.tobj x cid v) = SOut.ok w ∧
      deserialize env (STy.tobjTy y) w = DOut.err DeError.vtableInvalid := by
  refine ⟨_, rfl, ?_⟩
  simp [deserialize, deserializerDeserialize, deserializeTraitObjectImpl,
    serialize, serializerSerialize, serializeTraitObjectImpl, fatVtable,
    typeIdDyn, erasedSerialize, vtableEncode, visit_seq, vtableDeserialize,
    hfp, DOut.map]

/-- Witness for C5: encode under interface 0, decode under interface 1. -/
theorem C5_interface_mismatch_is_error_witness :
    ∃ w, serialize envW (SVal.tobj 0 0 9) = SOut.ok w ∧
      deserialize envW (STy.tobjTy 1) w = DOut.err DeError.vtableInvalid :=
  C5_interface_mismatch_is_error envW 0 1 0 9 (by decide)

/-- C6 counterexample: a 2-element envelope tuple (fewer than 3 elements)
whose recorded fingerprint mismatches the decoded vtable makes the
deserializer panic, not return an invalid_length decode error as the claim
states for every short tuple. -/
theorem C6_counterexample :
    deserialize envW (STy.tobjTy 0)
      (Wire.seq [Wire.vtref 7 50 1000, Wire.nat 999]) = DOut.fatal :=
  rfl

/-- C6 amended: provided any fingerprint element read matches the concrete
type of the decoded vtable (otherwise the mismatch panic takes precedence),
every malformed input produces an ordinary decode error through the whole
call chain: invalid_length 0, 1 or 2 for short tuples, the propagated codec
error for an invalid vtable element, a non-integer fingerprint element, a
failing payload, or a non-tuple wire value. -/
theorem C6_malformed_inputs_error (env : Env) (i : Nat)
    (w0 w1 w2 bv bu wns : Wire) (rest rest2 : List Wire)
    (t0 : Int) (t1 cid j : Nat)
    (h0 : vtableDeserialize env i w0 = some t0)
    (h1 : u64Deserialize w1 = some t1)
    (hOwn : env.vtOwner (vtableTo env t0) = some (cid, j))
    (hfp : t1 = (env.concrete cid).fp)
    (hbv : vtableDeserialize env i bv = none)
    (hbu : u64Deserialize bu = none)
    (hpay : (env.concrete cid).de w2 = none)
    (hns : ∀ xs, wns ≠ Wire.seq xs) :
    deserialize env (STy.tobjTy i) (Wire.seq [])
        = DOut.err (DeError.invalidLength 0) ∧
    deserialize env (STy.tobjTy i) (Wire.seq [w0])
        = DOut.err (DeError.invalidLength 1) ∧
    deserialize env (STy.tobjTy i) (Wire.seq [w0, w1])
        = DOut.err (DeError.invalidLength 2) ∧
    deserialize env (STy.tobjTy i) (Wire.seq (bv :: rest))
        = DOut.err DeError.vtableInvalid ∧
    deserialize env (STy.tobjTy i) (Wire.seq (w0 :: bu :: rest2))
        = DOut.err DeError.expectedU64 ∧
    deserialize env (STy.tobjTy i) (Wire.seq [w0, w1, w2])
        = DOut.err DeError.custom ∧
    deserialize env (STy.tobjTy i) wns = DOut.err DeError.expectedTuple := by
  refine ⟨?_, ?_, ?_, ?_, ?_, ?_, ?_⟩
  · simp [deserialize, deserializerDeserialize, deserializeTraitObjectImpl,
      visit_seq, DOut.map]
  · simp [deserialize, deserializerDeserialize, deserializeTraitObjectImpl,
      visit_seq, h0, DOut.map]
  · simp [deserialize, deserializerDeserialize, deserializeTraitObjectImpl,
      visit_seq, h0, h1, hOwn, hfp, DOut.map]
  · simp [deserialize, deserializerDeserialize, deserializeTraitObjectImpl,
      visit_seq, hbv, DOut.map]
  · simp [deserialize, deserializerDeserialize, deserializeTraitObjectImpl,
      visit_seq, h0, hbu, DOut.map]
  · simp [deserialize, deserializerDeserialize, deserializeTraitObjectImpl,
      visit_seq, h0, h1, hOwn, hfp, hpay, DOut.map]
  · cases wns <;> first
      | rfl
      | exact absurd rfl (hns _)

/-- Witness for the amended C6 at concrete inputs. -/
theorem C6_malformed_inputs_error_witness :
    deserialize envW (STy.tobjTy 0) (Wire.seq [])
        = DOut.err (DeError.invalidLength 0) ∧
    deserialize envW (STy.tobjTy 0) (Wire.seq [Wire.vtref 7 50 1000])
        = DOut.err (DeError.invalidLength 1) ∧
    deserialize envW (STy.tobjTy 0)
        (Wire.seq [Wire.vtref 7 50 1000, Wire.nat 100])
        = DOut.err (DeError.invalidLength 2) ∧
    deserialize envW (STy.tobjTy 0) (Wire.seq (Wire.nat 3 :: []))
        = DOut.err DeError.vtableInvalid ∧
    deserialize envW (STy.tobjTy 0)
        (Wire.seq (Wire.vtref 7 50 1000 :: Wire.str "y" :: []))
        = DOut.err DeError.expectedU64 ∧
    deserialize envW (STy.tobjTy 0)
        (Wire.seq [Wire.vtref 7 50 1000, Wire.nat 100, Wire.str "x"])
        = DOut.err DeError.custom ∧
    deserialize envW (STy.tobjTy 0) (Wire.nat 0)
        = DOut.err DeError.expectedTuple :=
  C6_malformed_inputs_error envW 0 (Wire.vtref 7 50 1000) (Wire.nat 100)
    (Wire.str "x") (Wire.nat 3) (Wire.str "y") (Wire.nat 0) [] []
    1000 100 0 0 rfl rfl rfl rfl rfl rfl rfl
    (fun _ h => Wire.noConfusion h)

/-- C7: shape selection is per static shape and mutually exclusive: a sized
value serializes exactly as the underlying codec natively does, a str and a
slice exactly as the native sequence forms, and only a trait object produces
the 3-tuple envelope. -/
theorem C7_shape_selection (env : Env) (cid v : Nat) (s : String)
    (vs : List Nat) (i : Nat) :
    serialize env (SVal.sized cid v) = SOut.ok ((env.concrete cid).ser v) ∧
    serialize env (SVal.strV s) = SOut.ok (serdeSerializeStr s) ∧
    serialize env (SVal.slice cid vs)
        = SOut.ok (serdeSerializeSlice env cid vs) ∧
    serialize env (SVal.tobj i cid v) = SOut.ok (Wire.seq
      [ vtableEncode env i (env.vt cid i)
      , Wire.nat (env.concrete cid).fp
      , (env.concrete cid).ser v ]) :=
  ⟨rfl, rfl, rfl, rfl⟩

/-- C8 counterexample: the erased deserialization entry point succeeds on a
heap in which the caller has allocated nothing at all, returning a freshly
allocated cell, so it does not write into a caller-preallocated slot. -/
theorem C8_counterexample :
    deserializeErasedImpl envW 0 (Heap.mk [] 0) (Wire.nat 42)
        = some (Heap.mk [(0, 42)] 1, 0) ∧
    (Heap.mk [] 0).cells = [] :=
  ⟨rfl, rfl⟩

/-- C8 amended: the erased deserialization entry point itself allocates the
storage: on success it returns a fresh cell (an address not previously
allocated) holding the fully-initialized deserialized value, and on codec
failure it returns the error with nothing allocated. -/
theorem C8_callee_allocates (env : Env) (cid : Nat) (h : Heap) (w : Wire)
    (hwf : ∀ p ∈ h.cells, p.1 < h.next) :
    ((env.concrete cid).de w = none →
      deserializeErasedImpl env cid h w = none) ∧
    (∀ x, (env.concrete cid).de w = some x →
      deserializeErasedImpl env cid h w =
        some (Heap.mk (h.cells ++ [(h.next, x)]) (h.next + 1), h.next) ∧
      h.next ∉ h.cells.map Prod.fst) := by
  constructor
  · intro hnone
    simp [deserializeErasedImpl, hnone]
  · intro x hx
    refine ⟨by simp [deserializeErasedImpl, hx, Heap.alloc], ?_⟩
    intro hmem
    rcases List.mem_map.mp hmem with ⟨p, hp, hfst⟩
    have := hwf p hp
    omega

/-- Witness for the amended C8: on a heap with one cell, deserialization
allocates the next fresh cell. -/
theorem C8_callee_allocates_witness :
    deserializeErasedImpl envW 0 (Heap.mk [(0, 1)] 1) (Wire.nat 42)
        = some (Heap.mk [(0, 1), (1, 42)] 2, 1) ∧
    1 ∉ (Heap.mk [(0, 1)] 1).cells.map Prod.fst :=
  (C8_callee_allocates envW 0 (Heap.mk [(0, 1)] 1) (Wire.nat 42)
    (by decide)).2 42 rfl

/-- C9: the Box, Rc and Arc wrappers implement serde Serialize and
Deserialize entirely by routing the contained value through the specializing
serialize and deserialize functions, and every other modelled operation
(dereference, equality, cloning, formatting) delegates structurally to the
std primitive they wrap. -/
theorem C9_wrapper_delegation {α : Type} (env : Env) (ty : STy) (w : Wire)
    (b : TBox SVal) (r : TRc SVal) (a : TArc SVal)
    (bb ba : TBox α) (rb ra : TRc α) (ab aa : TArc α)
    (c : α → α) (e : α → α → Bool) (f : α → String) :
    TBox.serializeSerde env b = serialize env b.boxed.val ∧
    TBox.deserializeSerde env ty w
        = (deserialize env ty w).map (fun v => TBox.mk (StdBox.mk v)) ∧
    TBox.deref bb = bb.boxed ∧
    TBox.clone c bb = TBox.mk (StdBox.clone c bb.boxed) ∧
    TBox.beq e bb ba = StdBox.beq e bb.boxed ba.boxed ∧
    TBox.fmt f bb = StdBox.fmt f bb.boxed ∧
    TRc.serializeSerde env r = serialize env r.rc.val ∧
    TRc.deserializeSerde env ty w
        = (deserialize env ty w).map (fun v => TRc.mk (StdRc.mk v)) ∧
    TRc.deref rb = rb.rc ∧
    TRc.clone rb = TRc.mk (StdRc.clone rb.rc) ∧
    TRc.beq e rb ra = StdRc.beq e rb.rc ra.rc ∧
    TRc.fmt f rb = StdRc.fmt f rb.rc ∧
    TArc.serializeSerde env a = serialize env a.arc.val ∧
    TArc.deserializeSerde env ty w
        = (deserialize env ty w).map (fun v => TArc.mk (StdArc.mk v)) ∧
    TArc.deref ab = ab.arc ∧
    TArc.clone ab = TArc.mk (StdArc.clone ab.arc) ∧
    TArc.beq e ab aa = StdArc.beq e ab.arc aa.arc ∧
    TArc.fmt f ab = StdArc.fmt f ab.arc :=
  ⟨rfl, rfl, rfl, rfl, rfl, rfl, rfl, rfl, rfl, rfl, rfl, rfl, rfl, rfl,
   rfl, rfl, rfl, rfl⟩

/-- Auxiliary: the trait-object visitor never executes an unreachable stub. -/
theorem visit_seq_ne_unreach (env : Env) (i : Nat) (xs : List Wire) :
    visit_seq env i xs ≠ DOut.unreach := by
  unfold visit_seq
  repeat' split
  all_goals simp

/-- C10: the unreachable and panic stubs of the specialization machinery are
dead for every type reachable through the public entry points: the default
serialize_sized, deserialize_erased and deserialize_box bodies are the stub
outcome, and neither the resolved serializer nor the resolved deserializer
ever produces it. -/
theorem C10_unreachable_stubs_dead :
    serialize_sized_default = SOut.unreach ∧
    deserialize_erased_default = DOut.unreach ∧
    deserialize_box_default = DOut.unreach ∧
    (∀ (env : Env) (t : SVal), serializerSerialize env t ≠ SOut.unreach) ∧
    (∀ (env : Env) (ty : STy) (w : Wire),
      deserializerDeserialize env ty w ≠ DOut.unreach) := by
  refine ⟨rfl, rfl, rfl, ?_, ?_⟩
  · intro env t
    cases t <;> simp [serializerSerialize, serializeTraitObjectImpl,
      fatVtable, serialize_sized_spec]
  · intro env ty w
    cases ty with
    | sizedTy cid =>
      cases hde : (env.concrete cid).de w <;>
        simp [deserializerDeserialize, deserialize_box_spec, hde, DOut.map]
    | strTy =>
      cases hs : serdeDeserializeStr w <;>
        simp [deserializerDeserialize, hs]
    | sliceTy cid =>
      cases hs : serdeDeserializeSlice env cid w <;>
        simp [deserializerDeserialize, hs]
    | tobjTy i =>
      simp only [deserializerDeserialize, deserializeTraitObjectImpl]
      cases w <;> try simp [DOut.map]
      case seq xs =>
        cases hvs : visit_seq env i xs with
        | ok a => simp [DOut.map]
        | err e => simp [DOut.map]
        | fatal => simp [DOut.map]
        | unreach => exact absurd hvs (visit_seq_ne_unreach env i xs)
        | ub => simp [DOut.map]

end SerdeTraitobject
